import Mathlib

/-!
Verification development for the Beautifi Financing Portal Watcher's
change-detection and notification-filtering core.

The embedding below follows the TypeScript source:
* `src/diff/engine.ts` — `ChangeType`, `Change`, `DiffResult`, `computeDiff`,
  `detectChanges`, `toStoredApplications`;
* `src/index.ts` (`main`, steps 4–7) — the first-run flag, the inline
  notification filter, and the projection call, modelled as `runCycle`;
* `src/scraper/types.ts` / `src/storage/types.ts` — the record shapes,
  restricted to the fields the diff engine and projection read (payload
  fields such as `firstName`, `fee`, `doctor` are never read by the core
  and are omitted; `tab` is widened from the `TabName` string-literal
  union to `String`, and amounts are modelled as `Option Int` since the
  core only ever compares them for equality).

JavaScript semantics that the embedding must capture explicitly:
* `&&`-guards on strings test truthiness, i.e. non-emptiness (`jsTruthy`);
* a `string | null` field is truthy iff it is non-null and non-empty;
* `String.prototype.includes` is substring containment (`strIncludes`);
* a `Map` built by repeated `set` keeps the last binding for a key
  (`storedMapGet`);
* `Date.toISOString()` is modelled by passing the ISO string itself.
-/

/-- A value that may appear in a `Change`'s `previousValue`/`newValue` slot:
the TypeScript type is `string | number | null`. -/
inductive FieldVal where
  | s (v : String)
  | n (v : Int)
  | null
deriving DecidableEq, Repr

/-- `ChangeType` from `src/diff/engine.ts`. -/
inductive ChangeType where
  | new_application
  | status_change
  | amount_change
  | tab_change
  | notes_change
  | closed
deriving DecidableEq, Repr

/-- `ScrapedApplication` (`src/scraper/types.ts`), restricted to the fields
read by `detectChanges` and `toStoredApplications`. -/
structure ScrapedApplication where
  applicationId : String
  tab : String
  email : String
  status : String
  requestedAmount : Option Int
  approvedAmount : Option Int
  notes : String
  lossReason : Option String
  createdAt : String
  lastUpdatedAt : String
  rawJson : String
deriving DecidableEq, Repr

/-- `StoredApplication` (`src/storage/types.ts`), restricted to the fields
read or written by the diff engine and the snapshot projection. -/
structure StoredApplication where
  applicationId : String
  tab : String
  email : String
  status : String
  requestedAmount : Option Int
  approvedAmount : Option Int
  notes : String
  lossReason : Option String
  createdAt : String
  lastUpdatedAt : String
  lastScrapedAt : String
  rawJson : String
deriving DecidableEq, Repr

/-- `Change` from `src/diff/engine.ts`; the optional TypeScript fields
default to `none` (absent). -/
structure Change where
  type : ChangeType
  application : ScrapedApplication
  previousValue : Option FieldVal := none
  newValue : Option FieldVal := none
  field : Option String := none
deriving DecidableEq, Repr

/-- `DiffResult` from `src/diff/engine.ts`. -/
structure DiffResult where
  changes : List Change
  newApplications : List ScrapedApplication
  updatedApplications : List ScrapedApplication
  unchangedCount : Nat
deriving DecidableEq, Repr

/-- JavaScript truthiness of a `string | null` value: non-null and non-empty. -/
def jsTruthy : Option String → Bool
  | none => false
  | some v => v != ""

/-- `hay.includes(pat)` on JavaScript strings: substring containment. -/
def strIncludes (hay pat : String) : Bool :=
  decide (List.IsInfix pat.data hay.data)

/-- `s.toLowerCase()`: character-wise lowering (the source only ever lowers
ASCII status labels, where JavaScript `toLowerCase` is exactly this map). -/
def strToLower (s : String) : String :=
  String.mk (s.data.map Char.toLower)

/-- The closed-status vocabulary hard-coded in `detectChanges`. -/
def closedStatuses : List String := ["closed", "n/a", "contact beautifi"]

/-- `closedStatuses.some(s => scraped.status.toLowerCase().includes(s))`
from `detectChanges`. -/
def isClosureStatus (st : String) : Bool :=
  closedStatuses.any (fun s => strIncludes (strToLower st) s)

/-- Lift a `number | null` amount into a `Change` value slot. -/
def amountVal : Option Int → Option FieldVal
  | some v => some (.n v)
  | none => some .null

/-- Lift a `string | null` field into a `Change` value slot. -/
def optStrVal : Option String → Option FieldVal
  | some v => some (.s v)
  | none => some .null

/-- The status block of `detectChanges` (engine.ts lines 287–312):
`if (scraped.status && scraped.status !== stored.status)`, reclassified to
`closed` when the lowercased status contains a closed-vocabulary word AND
`scraped.lossReason` is truthy. -/
def statusChangesOf (scraped : ScrapedApplication) (stored : StoredApplication) : List Change :=
  if scraped.status != "" && scraped.status != stored.status then
    if isClosureStatus scraped.status && jsTruthy scraped.lossReason then
      [{ type := .closed, application := scraped,
         previousValue := some (.s stored.status), newValue := some (.s scraped.status),
         field := some "status" }]
    else
      [{ type := .status_change, application := scraped,
         previousValue := some (.s stored.status), newValue := some (.s scraped.status),
         field := some "status" }]
  else []

/-- The tab block of `detectChanges` (lines 314–323):
`if (scraped.tab !== stored.tab)` — no truthiness guard. -/
def tabChangesOf (scraped : ScrapedApplication) (stored : StoredApplication) : List Change :=
  if scraped.tab != stored.tab then
    [{ type := .tab_change, application := scraped,
       previousValue := some (.s stored.tab), newValue := some (.s scraped.tab),
       field := some "tab" }]
  else []

/-- The approved-amount block of `detectChanges` (lines 325–337):
`scraped.approvedAmount !== null && scraped.approvedAmount !== stored.approvedAmount`. -/
def amountChangesOf (scraped : ScrapedApplication) (stored : StoredApplication) : List Change :=
  if scraped.approvedAmount.isSome && scraped.approvedAmount != stored.approvedAmount then
    [{ type := .amount_change, application := scraped,
       previousValue := amountVal stored.approvedAmount, newValue := amountVal scraped.approvedAmount,
       field := some "approvedAmount" }]
  else []

/-- The notes block of `detectChanges` (lines 339–348):
`if (scraped.notes && scraped.notes !== stored.notes)`. -/
def notesChangesOf (scraped : ScrapedApplication) (stored : StoredApplication) : List Change :=
  if scraped.notes != "" && scraped.notes != stored.notes then
    [{ type := .notes_change, application := scraped,
       previousValue := some (.s stored.notes), newValue := some (.s scraped.notes),
       field := some "notes" }]
  else []

/-- The loss-reason block of `detectChanges` (lines 350–359):
`if (scraped.lossReason && scraped.lossReason !== stored.lossReason)`,
emitted with type `closed`. -/
def lossReasonChangesOf (scraped : ScrapedApplication) (stored : StoredApplication) : List Change :=
  if jsTruthy scraped.lossReason && scraped.lossReason != stored.lossReason then
    [{ type := .closed, application := scraped,
       previousValue := optStrVal stored.lossReason, newValue := optStrVal scraped.lossReason,
       field := some "lossReason" }]
  else []

/-- `detectChanges` from `src/diff/engine.ts`: the five field checks run in
source order — status, tab, approved amount, notes, loss reason — each
pushing zero or one `Change`. -/
def detectChanges (scraped : ScrapedApplication) (stored : StoredApplication) : List Change :=
  statusChangesOf scraped stored ++ tabChangesOf scraped stored ++
    amountChangesOf scraped stored ++ notesChangesOf scraped stored ++
    lossReasonChangesOf scraped stored

/-- Lookup in the `storedMap` that `computeDiff` builds with `Map.set` per
stored record: a later `set` overwrites an earlier one, so the last stored
record with a given `applicationId` wins. -/
def storedMapGet (stored : List StoredApplication) (key : String) : Option StoredApplication :=
  List.foldl (fun acc app => if app.applicationId == key then some app else acc) none stored

/-- `computeDiff` from `src/diff/engine.ts`: classify each scraped record
(in observed order) as new / updated / unchanged against the stored map,
concatenating the emitted changes in observed order. -/
def computeDiff (scraped : List ScrapedApplication) (stored : List StoredApplication) : DiffResult :=
  match scraped with
  | [] => { changes := [], newApplications := [], updatedApplications := [], unchangedCount := 0 }
  | scrapedApp :: rest =>
    let r := computeDiff rest stored
    match storedMapGet stored scrapedApp.applicationId with
    | none =>
      { r with
        changes := { type := .new_application, application := scrapedApp } :: r.changes,
        newApplications := scrapedApp :: r.newApplications }
    | some storedApp =>
      let appChanges := detectChanges scrapedApp storedApp
      if appChanges.length > 0 then
        { r with
          changes := appChanges ++ r.changes,
          updatedApplications := scrapedApp :: r.updatedApplications }
      else
        { r with unchangedCount := r.unchangedCount + 1 }

/-- The per-record body of `toStoredApplications` (engine.ts lines 367–386);
`scrapedAt.toISOString()` is modelled by the ISO string `scrapedAtIso`. -/
def toStoredApplication (app : ScrapedApplication) (scrapedAtIso : String) : StoredApplication :=
  { applicationId := app.applicationId
    tab := app.tab
    email := app.email
    status := app.status
    requestedAmount := app.requestedAmount
    approvedAmount := app.approvedAmount
    notes := app.notes
    lossReason := app.lossReason
    createdAt := app.createdAt
    lastUpdatedAt := app.lastUpdatedAt
    lastScrapedAt := scrapedAtIso
    rawJson := app.rawJson }

/-- `toStoredApplications` from `src/diff/engine.ts`. -/
def toStoredApplications (scraped : List ScrapedApplication) (scrapedAtIso : String) : List StoredApplication :=
  scraped.map (fun app => toStoredApplication app scrapedAtIso)

/-- The inline notification filter of `main` (`src/index.ts` lines 56–68):
drop everything on the first run; drop events whose record's lowercased
status contains "closed" or "n/a"; the redundant new-application clause is
kept as in the source. -/
def notifiableFilter (isFirstRun : Bool) (change : Change) : Bool :=
  if isFirstRun then false
  else
    let status := strToLower change.application.status
    if strIncludes status "closed" || strIncludes status "n/a" then false
    else if change.type == ChangeType.new_application && isFirstRun then false
    else true

/-- The outputs of one poll cycle's pure core (steps 5–7 of `main`). -/
structure CycleResult where
  diff : DiffResult
  notifiableChanges : List Change
  storedApps : List StoredApplication
deriving Repr

/-- Steps 4–7 of `main` (`src/index.ts`): compute the diff against the
existing stored records, derive `isFirstRun` from
`existingApplications.length === 0`, filter the changes, and project the
scraped set for persistence. -/
def runCycle (scraped : List ScrapedApplication) (existing : List StoredApplication)
    (scrapedAtIso : String) : CycleResult :=
  let diff := computeDiff scraped existing
  let isFirstRun : Bool := existing.length == 0
  { diff := diff
    notifiableChanges := diff.changes.filter (notifiableFilter isFirstRun)
    storedApps := toStoredApplications scraped scrapedAtIso }

/-- The five fields that `detectChanges` actually compares, in source check
order (the spec calls `tab` the "stage"). `requestedAmount` is absent: no
check in `detectChanges` ever reads it. -/
def comparedFields : List String := ["status", "tab", "approvedAmount", "notes", "lossReason"]

/-- The compared fields on which the observed record carries an
information-introducing difference (record model §4.1 with the
null-is-unknown rule: an empty/null observed text or amount value is
"unknown" and never a difference; `tab` has no such guard), in check
order. -/
def diffFields (o : ScrapedApplication) (s : StoredApplication) : List String :=
  (if o.status != "" && o.status != s.status then ["status"] else []) ++
  (if o.tab != s.tab then ["tab"] else []) ++
  (if o.approvedAmount.isSome && o.approvedAmount != s.approvedAmount then ["approvedAmount"] else []) ++
  (if o.notes != "" && o.notes != s.notes then ["notes"] else []) ++
  (if jsTruthy o.lossReason && o.lossReason != s.lossReason then ["lossReason"] else [])

/-- The event kind `detectChanges` assigns to a difference on a given
field: a status difference is `closed` exactly when the observed status
matches the closed vocabulary and the observed loss reason is truthy,
otherwise `status_change`; a loss-reason difference is emitted as
`closed`. -/
def kindFor (o : ScrapedApplication) (f : String) : ChangeType :=
  if f = "status" then
    (if isClosureStatus o.status && jsTruthy o.lossReason then .closed else .status_change)
  else if f = "tab" then .tab_change
  else if f = "approvedAmount" then .amount_change
  else if f = "notes" then .notes_change
  else .closed

/-- The per-record event list inside `computeDiff`'s loop: one
`new_application` event when the key is absent from the stored map,
otherwise whatever `detectChanges` emits. -/
def recordChanges (stored : List StoredApplication) (a : ScrapedApplication) : List Change :=
  match storedMapGet stored a.applicationId with
  | none => [{ type := .new_application, application := a }]
  | some s => detectChanges a s

/-- Erase the one field the snapshot projection stamps per cycle, for
"equal up to the timestamp" statements. -/
def stripTimestamp (st : StoredApplication) : StoredApplication :=
  { st with lastScrapedAt := "" }

/-- Whitespace trimming as the spec's record model describes it (the
detector itself never trims). -/
def specTrim (s : String) : String :=
  String.mk (((s.data.dropWhile Char.isWhitespace).reverse.dropWhile Char.isWhitespace).reverse)

/-- Build a scraped record whose payload fields not involved in the claims
are empty. -/
def mkScraped (id tb st : String) (reqAmt apprAmt : Option Int) (nts : String)
    (loss : Option String) : ScrapedApplication :=
  { applicationId := id, tab := tb, email := "", status := st,
    requestedAmount := reqAmt, approvedAmount := apprAmt, notes := nts,
    lossReason := loss, createdAt := "", lastUpdatedAt := "", rawJson := "" }

/-- Build a stored record whose payload fields not involved in the claims
are empty. -/
def mkStored (id tb st : String) (reqAmt apprAmt : Option Int) (nts : String)
    (loss : Option String) : StoredApplication :=
  { applicationId := id, tab := tb, email := "", status := st,
    requestedAmount := reqAmt, approvedAmount := apprAmt, notes := nts,
    lossReason := loss, createdAt := "", lastUpdatedAt := "", lastScrapedAt := "", rawJson := "" }

lemma mem_statusChangesOf_field (o : ScrapedApplication) (s : StoredApplication) :
    ∀ c ∈ statusChangesOf o s, c.field = some "status" := by
  unfold statusChangesOf; intro c hc
  repeat' split at hc
  all_goals simp_all

lemma mem_tabChangesOf_field (o : ScrapedApplication) (s : StoredApplication) :
    ∀ c ∈ tabChangesOf o s, c.field = some "tab" := by
  unfold tabChangesOf; intro c hc
  repeat' split at hc
  all_goals simp_all

lemma mem_amountChangesOf_field (o : ScrapedApplication) (s : StoredApplication) :
    ∀ c ∈ amountChangesOf o s, c.field = some "approvedAmount" := by
  unfold amountChangesOf; intro c hc
  repeat' split at hc
  all_goals simp_all

lemma mem_notesChangesOf_field (o : ScrapedApplication) (s : StoredApplication) :
    ∀ c ∈ notesChangesOf o s, c.field = some "notes" := by
  unfold notesChangesOf; intro c hc
  repeat' split at hc
  all_goals simp_all

lemma mem_lossReasonChangesOf_field (o : ScrapedApplication) (s : StoredApplication) :
    ∀ c ∈ lossReasonChangesOf o s, c.field = some "lossReason" := by
  unfold lossReasonChangesOf; intro c hc
  repeat' split at hc
  all_goals simp_all

lemma filter_field_self (p : List Change) (f : String) (hp : ∀ c ∈ p, c.field = some f) :
    p.filter (fun c => c.field == some f) = p :=
  List.filter_eq_self.mpr (fun c hc => by simp [hp c hc])

lemma filter_field_nil (p : List Change) (f g : String) (hfg : g ≠ f)
    (hp : ∀ c ∈ p, c.field = some g) :
    p.filter (fun c => c.field == some f) = [] := by
  rw [List.filter_eq_nil_iff]
  intro c hc
  simp [hp c hc, hfg]

lemma detectChanges_filter_status (o : ScrapedApplication) (s : StoredApplication) :
    (detectChanges o s).filter (fun c => c.field == some "status") = statusChangesOf o s := by
  show ((statusChangesOf o s ++ tabChangesOf o s ++ amountChangesOf o s ++
      notesChangesOf o s ++ lossReasonChangesOf o s).filter _) = _
  simp only [List.filter_append]
  rw [filter_field_self _ _ (mem_statusChangesOf_field o s),
    filter_field_nil _ _ _ (by decide) (mem_tabChangesOf_field o s),
    filter_field_nil _ _ _ (by decide) (mem_amountChangesOf_field o s),
    filter_field_nil _ _ _ (by decide) (mem_notesChangesOf_field o s),
    filter_field_nil _ _ _ (by decide) (mem_lossReasonChangesOf_field o s)]
  simp

lemma detectChanges_filter_tab (o : ScrapedApplication) (s : StoredApplication) :
    (detectChanges o s).filter (fun c => c.field == some "tab") = tabChangesOf o s := by
  show ((statusChangesOf o s ++ tabChangesOf o s ++ amountChangesOf o s ++
      notesChangesOf o s ++ lossReasonChangesOf o s).filter _) = _
  simp only [List.filter_append]
  rw [filter_field_nil _ _ _ (by decide) (mem_statusChangesOf_field o s),
    filter_field_self _ _ (mem_tabChangesOf_field o s),
    filter_field_nil _ _ _ (by decide) (mem_amountChangesOf_field o s),
    filter_field_nil _ _ _ (by decide) (mem_notesChangesOf_field o s),
    filter_field_nil _ _ _ (by decide) (mem_lossReasonChangesOf_field o s)]
  simp

lemma detectChanges_filter_amount (o : ScrapedApplication) (s : StoredApplication) :
    (detectChanges o s).filter (fun c => c.field == some "approvedAmount") = amountChangesOf o s := by
  show ((statusChangesOf o s ++ tabChangesOf o s ++ amountChangesOf o s ++
      notesChangesOf o s ++ lossReasonChangesOf o s).filter _) = _
  simp only [List.filter_append]
  rw [filter_field_nil _ _ _ (by decide) (mem_statusChangesOf_field o s),
    filter_field_nil _ _ _ (by decide) (mem_tabChangesOf_field o s),
    filter_field_self _ _ (mem_amountChangesOf_field o s),
    filter_field_nil _ _ _ (by decide) (mem_notesChangesOf_field o s),
    filter_field_nil _ _ _ (by decide) (mem_lossReasonChangesOf_field o s)]
  simp

lemma detectChanges_filter_notes (o : ScrapedApplication) (s : StoredApplication) :
    (detectChanges o s).filter (fun c => c.field == some "notes") = notesChangesOf o s := by
  show ((statusChangesOf o s ++ tabChangesOf o s ++ amountChangesOf o s ++
      notesChangesOf o s ++ lossReasonChangesOf o s).filter _) = _
  simp only [List.filter_append]
  rw [filter_field_nil _ _ _ (by decide) (mem_statusChangesOf_field o s),
    filter_field_nil _ _ _ (by decide) (mem_tabChangesOf_field o s),
    filter_field_nil _ _ _ (by decide) (mem_amountChangesOf_field o s),
    filter_field_self _ _ (mem_notesChangesOf_field o s),
    filter_field_nil _ _ _ (by decide) (mem_lossReasonChangesOf_field o s)]
  simp

lemma detectChanges_filter_lossReason (o : ScrapedApplication) (s : StoredApplication) :
    (detectChanges o s).filter (fun c => c.field == some "lossReason") = lossReasonChangesOf o s := by
  show ((statusChangesOf o s ++ tabChangesOf o s ++ amountChangesOf o s ++
      notesChangesOf o s ++ lossReasonChangesOf o s).filter _) = _
  simp only [List.filter_append]
  rw [filter_field_nil _ _ _ (by decide) (mem_statusChangesOf_field o s),
    filter_field_nil _ _ _ (by decide) (mem_tabChangesOf_field o s),
    filter_field_nil _ _ _ (by decide) (mem_amountChangesOf_field o s),
    filter_field_nil _ _ _ (by decide) (mem_notesChangesOf_field o s),
    filter_field_self _ _ (mem_lossReasonChangesOf_field o s)]
  simp

lemma detectChanges_field_kinds (o : ScrapedApplication) (s : StoredApplication) :
    (detectChanges o s).map (fun c => (c.field, c.type)) =
      (diffFields o s).map (fun f => (some f, kindFor o f)) := by
  unfold detectChanges diffFields statusChangesOf tabChangesOf amountChangesOf
    notesChangesOf lossReasonChangesOf
  cases h1 : (o.status != "" && o.status != s.status) <;>
  cases h2 : (o.tab != s.tab) <;>
  cases h3 : (o.approvedAmount.isSome && o.approvedAmount != s.approvedAmount) <;>
  cases h4 : (o.notes != "" && o.notes != s.notes) <;>
  cases h5 : (jsTruthy o.lossReason && o.lossReason != s.lossReason) <;>
  cases h6 : (isClosureStatus o.status && jsTruthy o.lossReason) <;>
  simp [kindFor, h6]

lemma diffFields_sublist (o : ScrapedApplication) (s : StoredApplication) :
    List.Sublist (diffFields o s) comparedFields := by
  unfold diffFields comparedFields
  cases h1 : (o.status != "" && o.status != s.status) <;>
  cases h2 : (o.tab != s.tab) <;>
  cases h3 : (o.approvedAmount.isSome && o.approvedAmount != s.approvedAmount) <;>
  cases h4 : (o.notes != "" && o.notes != s.notes) <;>
  cases h5 : (jsTruthy o.lossReason && o.lossReason != s.lossReason) <;>
  decide

lemma computeDiff_changes_eq (scraped : List ScrapedApplication) (stored : List StoredApplication) :
    (computeDiff scraped stored).changes = (scraped.map (recordChanges stored)).flatten := by
  induction scraped with
  | nil => rfl
  | cons a rest ih =>
    unfold computeDiff
    cases hq : storedMapGet stored a.applicationId with
    | none => simp [recordChanges, hq, ih]
    | some st =>
      cases hd : detectChanges a st with
      | nil => simp [recordChanges, hq, hd, ih]
      | cons c cs => simp [recordChanges, hq, hd, ih]

lemma computeDiff_group_count (scraped : List ScrapedApplication) (stored : List StoredApplication) :
    (computeDiff scraped stored).newApplications.length +
      (computeDiff scraped stored).updatedApplications.length +
      (computeDiff scraped stored).unchangedCount = scraped.length := by
  induction scraped with
  | nil => rfl
  | cons a rest ih =>
    unfold computeDiff
    cases hq : storedMapGet stored a.applicationId with
    | none => simp [hq]; omega
    | some st =>
      cases hd : detectChanges a st with
      | nil => simp [hq, hd]; omega
      | cons c cs => simp [hq, hd]; omega

lemma foldl_storedMap_no_match (l : List StoredApplication) (k : String)
    (init : Option StoredApplication) (h : ∀ x ∈ l, x.applicationId ≠ k) :
    List.foldl (fun acc app => if app.applicationId == k then some app else acc) init l = init := by
  induction l generalizing init with
  | nil => rfl
  | cons b rest ih =>
    have hb : (b.applicationId == k) = false :=
      beq_eq_false_iff_ne.mpr (h b (List.mem_cons_self b rest))
    rw [List.foldl_cons, hb]
    simp only [Bool.false_eq_true, if_false]
    exact ih init (fun x hx => h x (List.mem_cons_of_mem b hx))

lemma storedMapGet_eq_some (l : List StoredApplication) (st : StoredApplication)
    (h : st ∈ l) (hnd : (l.map (fun x => x.applicationId)).Nodup) :
    storedMapGet l st.applicationId = some st := by
  induction l with
  | nil => cases h
  | cons b rest ih =>
    rw [List.map_cons, List.nodup_cons] at hnd
    obtain ⟨hb, hrest⟩ := hnd
    rcases List.mem_cons.mp h with h1 | h1
    · subst h1
      unfold storedMapGet
      simp only [List.foldl_cons, beq_self_eq_true, if_pos]
      exact foldl_storedMap_no_match rest st.applicationId (some st)
        (fun x hx hk => hb (hk ▸ List.mem_map_of_mem (fun y => y.applicationId) hx))
    · have hbk : (b.applicationId == st.applicationId) = false := by
        refine beq_eq_false_iff_ne.mpr (fun he => ?_)
        exact hb (he ▸ List.mem_map_of_mem (fun y => y.applicationId) h1)
      unfold storedMapGet
      rw [List.foldl_cons, hbk]
      simp only [Bool.false_eq_true, if_false]
      exact ih h1 hrest

lemma detectChanges_self_proj (a : ScrapedApplication) (t : String) :
    detectChanges a (toStoredApplication a t) = [] := by
  simp [detectChanges, statusChangesOf, tabChangesOf, amountChangesOf, notesChangesOf,
    lossReasonChangesOf, toStoredApplication]

lemma computeDiff_all_unchanged (scraped : List ScrapedApplication) (stored : List StoredApplication)
    (h : ∀ a ∈ scraped, ∃ s, storedMapGet stored a.applicationId = some s ∧ detectChanges a s = []) :
    computeDiff scraped stored =
      { changes := [], newApplications := [], updatedApplications := [],
        unchangedCount := scraped.length } := by
  induction scraped with
  | nil => rfl
  | cons a rest ih =>
    obtain ⟨s, hs, hd⟩ := h a (List.mem_cons_self a rest)
    have ihr := ih (fun x hx => h x (List.mem_cons_of_mem a hx))
    unfold computeDiff
    rw [hs]
    simp [hd, ihr]

lemma jsTruthy_eq_false (x : Option String) :
    jsTruthy x = false ↔ (x = none ∨ x = some "") := by
  cases x <;> simp [jsTruthy]

lemma jsTruthy_eq_true (x : Option String) :
    jsTruthy x = true ↔ (x ≠ none ∧ x ≠ some "") := by
  cases x <;> simp [jsTruthy]

/-- C1: on a baseline run (the stored record set supplied at cycle start is
empty) the delivery-eligible output is empty, and the projected stored set
is the observed set mapped 1:1, every record stamped with the cycle
timestamp. -/
theorem baseline_run_suppression (scraped : List ScrapedApplication) (t : String) :
    (runCycle scraped [] t).notifiableChanges = [] ∧
    (runCycle scraped [] t).storedApps = scraped.map (fun a => toStoredApplication a t) ∧
    ∀ st ∈ (runCycle scraped [] t).storedApps, st.lastScrapedAt = t := by
  refine ⟨?_, rfl, ?_⟩
  · simp [runCycle, notifiableFilter]
  · intro st hst
    simp only [runCycle, toStoredApplications, List.mem_map] at hst
    obtain ⟨a, _, rfl⟩ := hst
    rfl

/-- C2 counterexample: a transition into the closed vocabulary with a null
observed loss reason is emitted as `status_change`, not `closed` — the
reclassification depends on the loss-reason field, not on the status
alone. -/
theorem status_closed_without_loss_cex :
    (detectChanges (mkScraped "a" "Submitted" "Closed" none none "" none)
        (mkStored "a" "Submitted" "Approved" none none "" none)).map
        (fun c => (c.field, c.type)) =
      [(some "status", ChangeType.status_change)] := by rfl

/-- C2 amended: a status transition yields exactly one status event, and it
is `closed` exactly when the new status matches the closed vocabulary AND
the observed loss reason is non-null and non-empty; otherwise
`status_change`; never both. -/
theorem status_transition_single_event (o : ScrapedApplication) (s : StoredApplication)
    (h1 : o.status ≠ "") (h2 : o.status ≠ s.status) :
    (detectChanges o s).filter (fun c => c.field == some "status") =
      [{ type := if isClosureStatus o.status && jsTruthy o.lossReason then ChangeType.closed
            else ChangeType.status_change,
         application := o, previousValue := some (FieldVal.s s.status),
         newValue := some (FieldVal.s o.status), field := some "status" }] := by
  rw [detectChanges_filter_status]
  unfold statusChangesOf
  rw [if_pos (by simp [bne_iff_ne, h1, h2] : (o.status != "" && o.status != s.status) = true)]
  cases h6 : (isClosureStatus o.status && jsTruthy o.lossReason) <;> simp [h6]

theorem status_transition_single_event_witness :
    ("Closed" ≠ "" ∧ "Closed" ≠ "Approved") ∧
    (detectChanges (mkScraped "w" "Submitted" "Closed" none none "" (some "budget"))
        (mkStored "w" "Submitted" "Approved" none none "" (some "budget"))).filter
        (fun c => c.field == some "status") =
      [{ type := ChangeType.closed,
         application := mkScraped "w" "Submitted" "Closed" none none "" (some "budget"),
         previousValue := some (FieldVal.s "Approved"), newValue := some (FieldVal.s "Closed"),
         field := some "status" }] :=
  ⟨⟨by decide, by decide⟩, status_transition_single_event _ _ (by decide) (by decide)⟩

/-- C3 counterexample: a `closed` event whose status is "Contact Beautifi"
(part of the detector's closed vocabulary but not of the policy's) survives
the non-baseline notification filter and is delivery-eligible. -/
theorem closed_event_delivered_cex :
    ((runCycle [mkScraped "a" "Submitted" "Contact Beautifi" none none "" (some "lost")]
        [mkStored "a" "Submitted" "Approved" none none "" (some "lost")] "T").notifiableChanges).map
      (fun c => c.type) = [ChangeType.closed] := by rfl

/-- C3 amended: on a non-baseline cycle an event — in particular a `closed`
event — is delivery-eligible iff its record's lowercased status contains
neither "closed" nor "n/a"; the detector's third vocabulary word
"contact beautifi" and loss-reason-triggered `closed` events are not
suppressed. -/
theorem closed_event_policy (scraped : List ScrapedApplication)
    (stored : List StoredApplication) (t : String) (h : stored ≠ []) (c : Change)
    (hc : c ∈ (runCycle scraped stored t).diff.changes) (_hclosed : c.type = ChangeType.closed) :
    c ∈ (runCycle scraped stored t).notifiableChanges ↔
      (strIncludes (strToLower c.application.status) "closed" = false ∧
       strIncludes (strToLower c.application.status) "n/a" = false) := by
  have hlen : (stored.length == 0) = false := by
    simpa [List.length_eq_zero] using h
  simp only [runCycle] at hc ⊢
  rw [List.mem_filter]
  simp only [notifiableFilter, hlen, Bool.false_eq_true, if_false, hc, true_and]
  cases ha : strIncludes (strToLower c.application.status) "closed" <;>
  cases hb : strIncludes (strToLower c.application.status) "n/a" <;>
  simp [ha, hb]

theorem closed_event_policy_witness :
    { type := ChangeType.closed,
      application := mkScraped "a" "Submitted" "Contact Beautifi" none none "" (some "lost"),
      previousValue := some (FieldVal.s "Approved"),
      newValue := some (FieldVal.s "Contact Beautifi"),
      field := some "status" } ∈
      (runCycle [mkScraped "a" "Submitted" "Contact Beautifi" none none "" (some "lost")]
        [mkStored "a" "Submitted" "Approved" none none "" (some "lost")] "T").notifiableChanges := by
  refine (closed_event_policy _ _ _ (by simp) _ ?_ rfl).mpr ⟨by rfl, by rfl⟩
  exact List.mem_singleton_self _

/-- C4 counterexample: a record differing in both status and stage emits
the status event first — the checks run status before stage (tab), not
stage before status. -/
theorem check_order_cex :
    (detectChanges (mkScraped "a" "Submitted" "Approved" none none "" none)
        (mkStored "a" "In-Progress" "Pending" none none "" none)).map (fun c => c.field) =
      [some "status", some "tab"] := by rfl

/-- C4 amended: per record the checks run in the order status, stage (tab),
amount, notes, loss-reason, each contributing zero or one event (the event
fields form a sublist of that order); across records, `computeDiff`'s
change list is the in-order concatenation of each observed record's
events. -/
theorem check_order :
    (∀ (o : ScrapedApplication) (s : StoredApplication),
      List.Sublist ((detectChanges o s).map (fun c => c.field)) (comparedFields.map some)) ∧
    (∀ (scraped : List ScrapedApplication) (stored : List StoredApplication),
      (computeDiff scraped stored).changes = (scraped.map (recordChanges stored)).flatten) := by
  constructor
  · intro o s
    have h2 : (detectChanges o s).map (fun c => c.field) = (diffFields o s).map some := by
      have h3 := congrArg (List.map Prod.fst) (detectChanges_field_kinds o s)
      simpa [List.map_map, Function.comp_def] using h3
    rw [h2]
    exact List.Sublist.map some (diffFields_sublist o s)
  · exact computeDiff_changes_eq

/-- C5: an observed null (or empty) value on the optional fields — approved
amount, notes, loss reason — never yields a change event for that field,
even when the stored value is non-null/non-empty. -/
theorem null_is_unknown (o : ScrapedApplication) (s : StoredApplication) :
    (o.approvedAmount = none → s.approvedAmount ≠ none →
      (detectChanges o s).filter (fun c => c.field == some "approvedAmount") = []) ∧
    (o.notes = "" → s.notes ≠ "" →
      (detectChanges o s).filter (fun c => c.field == some "notes") = []) ∧
    ((o.lossReason = none ∨ o.lossReason = some "") → s.lossReason ≠ none →
      (detectChanges o s).filter (fun c => c.field == some "lossReason") = []) := by
  refine ⟨fun h _ => ?_, fun h _ => ?_, fun h _ => ?_⟩
  · rw [detectChanges_filter_amount]; unfold amountChangesOf; simp [h]
  · rw [detectChanges_filter_notes]; unfold notesChangesOf; simp [h]
  · rw [detectChanges_filter_lossReason]; unfold lossReasonChangesOf
    rcases h with h | h <;> simp [jsTruthy, h]

theorem null_is_unknown_witness :
    (detectChanges (mkScraped "a" "Submitted" "Approved" none none "" none)
        (mkStored "a" "Submitted" "Approved" none (some 5000) "had notes" (some "lost"))).filter
      (fun c => c.field == some "approvedAmount") = [] ∧
    (detectChanges (mkScraped "a" "Submitted" "Approved" none none "" none)
        (mkStored "a" "Submitted" "Approved" none (some 5000) "had notes" (some "lost"))).filter
      (fun c => c.field == some "notes") = [] ∧
    (detectChanges (mkScraped "a" "Submitted" "Approved" none none "" none)
        (mkStored "a" "Submitted" "Approved" none (some 5000) "had notes" (some "lost"))).filter
      (fun c => c.field == some "lossReason") = [] :=
  ⟨(null_is_unknown _ _).1 rfl (by decide),
   (null_is_unknown _ _).2.1 rfl (by decide),
   (null_is_unknown _ _).2.2 (Or.inl rfl) (by decide)⟩

/-- C6 counterexample: a pair differing only in the requested amount — one
of the claim's "comparable fields" — produces zero events: `detectChanges`
never reads `requestedAmount`. -/
theorem requested_amount_cex :
    (mkScraped "a" "Submitted" "Approved" (some 5000) none "" none).requestedAmount ≠
      (mkStored "a" "Submitted" "Approved" (some 6000) none "" none).requestedAmount ∧
    detectChanges (mkScraped "a" "Submitted" "Approved" (some 5000) none "" none)
      (mkStored "a" "Submitted" "Approved" (some 6000) none "" none) = [] :=
  ⟨by decide, by rfl⟩

/-- C6 amended: over the five fields the detector actually compares
(status, stage/tab, approved amount, notes, loss reason — requested amount
is never compared), the emitted events correspond 1:1, in order, with the
fields carrying an information-introducing difference, each event's kind
determined by its field; in particular one differing field yields exactly
one event and two yield exactly two. -/
theorem classification_completeness (o : ScrapedApplication) (s : StoredApplication) :
    (detectChanges o s).map (fun c => (c.field, c.type)) =
      (diffFields o s).map (fun f => (some f, kindFor o f)) ∧
    (detectChanges o s).length = (diffFields o s).length := by
  refine ⟨detectChanges_field_kinds o s, ?_⟩
  have h := congrArg List.length (detectChanges_field_kinds o s)
  simpa using h

/-- C7: diffing an observed set (with distinct identity keys) against its
own projection yields no changes, no new and no updated records, every
record counted unchanged; and projecting at another timestamp gives the
same stored set up to the timestamp field. -/
theorem diff_idempotent (scraped : List ScrapedApplication) (t t2 : String)
    (h : (scraped.map (fun a => a.applicationId)).Nodup) :
    computeDiff scraped (toStoredApplications scraped t) =
      { changes := [], newApplications := [], updatedApplications := [],
        unchangedCount := scraped.length } ∧
    (toStoredApplications scraped t).map stripTimestamp =
      (toStoredApplications scraped t2).map stripTimestamp := by
  constructor
  · refine computeDiff_all_unchanged _ _ (fun a ha => ?_)
    refine ⟨toStoredApplication a t, ?_, detectChanges_self_proj a t⟩
    have hmem : toStoredApplication a t ∈ toStoredApplications scraped t :=
      List.mem_map_of_mem (fun x => toStoredApplication x t) ha
    have hnd : ((toStoredApplications scraped t).map (fun x => x.applicationId)).Nodup := by
      unfold toStoredApplications
      rw [List.map_map]
      exact h
    exact storedMapGet_eq_some _ _ hmem hnd
  · unfold toStoredApplications
    rw [List.map_map, List.map_map]
    rfl

theorem diff_idempotent_witness :
    (([mkScraped "a" "Submitted" "Approved" none none "" none,
       mkScraped "b" "In-Progress" "Pending" none (some 100) "n" (some "r")].map
        (fun a => a.applicationId)).Nodup) ∧
    computeDiff
      [mkScraped "a" "Submitted" "Approved" none none "" none,
       mkScraped "b" "In-Progress" "Pending" none (some 100) "n" (some "r")]
      (toStoredApplications
        [mkScraped "a" "Submitted" "Approved" none none "" none,
         mkScraped "b" "In-Progress" "Pending" none (some 100) "n" (some "r")] "T") =
      { changes := [], newApplications := [], updatedApplications := [], unchangedCount := 2 } :=
  ⟨by decide,
   (diff_idempotent
     [mkScraped "a" "Submitted" "Approved" none none "" none,
      mkScraped "b" "In-Progress" "Pending" none (some 100) "n" (some "r")] "T" "T"
     (by decide)).1⟩

/-- C8 counterexample: an observed record with an empty identity key is
silently classified as a new application — `computeDiff` returns a normal
result and never fails the cycle. -/
theorem missing_key_not_rejected_cex :
    computeDiff [mkScraped "" "Submitted" "Approved" none none "" none] [] =
      { changes := [{ type := ChangeType.new_application,
                      application := mkScraped "" "Submitted" "Approved" none none "" none }],
        newApplications := [mkScraped "" "Submitted" "Approved" none none "" none],
        updatedApplications := [], unchangedCount := 0 } := by rfl

/-- C8 amended: the reconciler performs no identity-key validation: it is a
total function, and every observed record — an empty key included — is
classified into exactly one of the new / updated / unchanged groups (their
sizes always sum to the number of observed records). -/
theorem reconciler_classifies_every_record (scraped : List ScrapedApplication)
    (stored : List StoredApplication) :
    (computeDiff scraped stored).newApplications.length +
      (computeDiff scraped stored).updatedApplications.length +
      (computeDiff scraped stored).unchangedCount = scraped.length :=
  computeDiff_group_count scraped stored

/-- C9 counterexample: two status values equal after trimming surrounding
whitespace still fire a `status_change` — the detector compares without
trimming. -/
theorem trimmed_equal_fires_cex :
    specTrim "Open " = specTrim "Open" ∧
    (detectChanges (mkScraped "a" "Submitted" "Open " none none "" none)
        (mkStored "a" "Submitted" "Open" none none "" none)).map (fun c => (c.field, c.type)) =
      [(some "status", ChangeType.status_change)] :=
  ⟨by rfl, by rfl⟩

/-- C9 amended: the detector's text comparison is byte-identity with no
trimming, case significant; for status, notes and loss reason an
empty/null observed value also yields no event, while stage (tab) is
compared exactly even when the observed value is empty. -/
theorem text_field_equality (o : ScrapedApplication) (s : StoredApplication) :
    ((detectChanges o s).filter (fun c => c.field == some "status") = [] ↔
      (o.status = "" ∨ o.status = s.status)) ∧
    ((detectChanges o s).filter (fun c => c.field == some "notes") = [] ↔
      (o.notes = "" ∨ o.notes = s.notes)) ∧
    ((detectChanges o s).filter (fun c => c.field == some "lossReason") = [] ↔
      (o.lossReason = none ∨ o.lossReason = some "" ∨ o.lossReason = s.lossReason)) ∧
    ((detectChanges o s).filter (fun c => c.field == some "tab") = [] ↔ o.tab = s.tab) := by
  refine ⟨?_, ?_, ?_, ?_⟩
  · rw [detectChanges_filter_status]; unfold statusChangesOf
    cases hg : (o.status != "" && o.status != s.status) with
    | false =>
      simp only [Bool.and_eq_false_iff, bne_eq_false_iff_eq] at hg
      simpa using hg
    | true =>
      simp only [Bool.and_eq_true, bne_iff_ne] at hg
      cases h6 : (isClosureStatus o.status && jsTruthy o.lossReason) <;>
        simp [hg.1, hg.2, h6]
  · rw [detectChanges_filter_notes]; unfold notesChangesOf
    cases hg : (o.notes != "" && o.notes != s.notes) with
    | false =>
      simp only [Bool.and_eq_false_iff, bne_eq_false_iff_eq] at hg
      simpa using hg
    | true =>
      simp only [Bool.and_eq_true, bne_iff_ne] at hg
      simp [hg.1, hg.2]
  · rw [detectChanges_filter_lossReason]; unfold lossReasonChangesOf
    cases hg : (jsTruthy o.lossReason && o.lossReason != s.lossReason) with
    | false =>
      simp only [Bool.and_eq_false_iff, jsTruthy_eq_false, bne_eq_false_iff_eq] at hg
      simpa [or_assoc] using hg
    | true =>
      rw [Bool.and_eq_true, jsTruthy_eq_true, bne_iff_ne] at hg
      simp [hg.1.1, hg.1.2, hg.2]
  · rw [detectChanges_filter_tab]; unfold tabChangesOf
    cases hg : (o.tab != s.tab) with
    | false =>
      rw [bne_eq_false_iff_eq] at hg
      simp [hg]
    | true =>
      rw [bne_iff_ne] at hg
      simp [hg]

/-- C10: when the observed status is the empty string, the detector emits
no event for the status field — neither `status_change` nor `closed` —
whatever the stored status is. -/
theorem empty_status_no_event (o : ScrapedApplication) (s : StoredApplication)
    (h : o.status = "") :
    (detectChanges o s).filter (fun c => c.field == some "status") = [] := by
  rw [detectChanges_filter_status]
  unfold statusChangesOf
  simp [h]

theorem empty_status_no_event_witness :
    (detectChanges (mkScraped "a" "Submitted" "" none none "" none)
        (mkStored "a" "Submitted" "Approved" none none "" none)).filter
      (fun c => c.field == some "status") = [] :=
  empty_status_no_event _ _ rfl
